import Mathlib

/-!
Shallow embedding of the Tonkkabot data pipeline (src/data.py).

Temperatures and coordinates are modelled as rationals, timestamps as
integer epoch seconds (timezone conversion is a bijection on instants and
is dropped), and the pandas DataFrame produced by `fetch_data` as a list
of typed rows.  Python exceptions are modelled explicitly: every
effectful step returns `Except PyExc _`, and `fetch_data`'s handler
converts the caught exception classes to the empty frame exactly as the
`except` clauses at src/data.py:203-212 do.
-/

deriving instance DecidableEq for Except

namespace Tonkkabot

/-- Python exception classes relevant to data.py.  `valueError` also
covers `json.JSONDecodeError`, which subclasses `ValueError`;
`osError` covers file-system failures (`PermissionError`, disk errors),
which no `except` clause in `fetch_data` catches. -/
inductive PyExc where
  | requestException
  | parseError
  | valueError
  | keyError
  | indexError
  | osError
deriving DecidableEq, Repr

/-- A decoded temperature field of a `doubleOrNilReasonTupleList` row.
`num q` is a numeric literal (Python `float` succeeds), `nan` is the
service's "NaN" no-data sentinel (Python `float("NaN")` succeeds and
yields a missing value), `bad` is a token `float` rejects
(raises `ValueError`). -/
inductive TempField where
  | num (q : ℚ)
  | nan
  | bad
deriving DecidableEq, Repr

/-- Semantics of `df["temp"].astype(float)` on one field: a numeric
string becomes its value, the "NaN" sentinel becomes a missing value
(`none`), and a non-numeric token raises `ValueError` (src/data.py:195). -/
def astypeFloat : TempField → Except PyExc (Option ℚ)
  | .num q => .ok (some q)
  | .nan => .ok none
  | .bad => .error .valueError

/-- One position triple as consumed by `get_positions`
(src/data.py:106-110): `lat = float(pos.pop(0))`, `lon = float(pos.pop(0))`,
`timestamp = int(pos.pop(0))`, in that order. -/
structure PosTriple where
  lat : ℚ
  lon : ℚ
  timestamp : ℤ
deriving DecidableEq, Repr

/-- Python `int(token)` on a numeric token: succeeds only on an integer
literal, otherwise raises `ValueError` (src/data.py:109). -/
def pyInt (q : ℚ) : Except PyExc ℤ :=
  if q.den = 1 then .ok q.num else .error .valueError

/-- Embedding of `get_positions` (src/data.py:94-111): the whitespace-split
token list of the `gmlcov:positions` element is consumed three at a time as
(lat, lon, timestamp).  A trailing group of fewer than three tokens makes
`pos.pop(0)` raise `IndexError`. -/
def get_positions : List ℚ → Except PyExc (List PosTriple)
  | [] => .ok []
  | lat :: lon :: ts :: rest => do
      let t ← pyInt ts
      let ps ← get_positions rest
      .ok ({ lat := lat, lon := lon, timestamp := t } :: ps)
  | _ => .error .indexError

/-- One row of the assembled DataFrame.  The field names are the COLUMN
LABELS the source assigns at src/data.py:194:
`pd.DataFrame(data_array, columns=["lon", "lat", "time", "temp"])`.
`temp = none` models a NaN entry in the float column. -/
structure Row where
  lon : ℚ
  lat : ℚ
  time : ℤ
  temp : Option ℚ
deriving DecidableEq, Repr

/-- Row construction from a position triple and a converted temperature.
`data_array` rows are `[lat, lon, timestamp, temp]` in decode order
(np.append of `positions` and the value rows, src/data.py:192), and the
column labels are assigned positionally, so the FIRST element (the
decoded latitude) lands under the label "lon" and the SECOND (the decoded
longitude) under "lat". -/
def mkRow (p : PosTriple) (t : Option ℚ) : Row :=
  { lon := p.lat, lat := p.lon, time := p.timestamp, temp := t }

/-- Conversion of the whole temperature column, the semantics of
`df["temp"].astype(float)` (src/data.py:195): element-wise `float`, with
the first non-numeric token aborting the conversion with `ValueError`. -/
def astype_column : List TempField → Except PyExc (List (Option ℚ))
  | [] => .ok []
  | v :: rest => do
      let t ← astypeFloat v
      let ts ← astype_column rest
      .ok (t :: ts)

/-- Decoding and assembly stage of `fetch_data` (src/data.py:181-198):
extract position triples, align them with the value rows
(`np.append(..., axis=1)` raises `ValueError` on a length mismatch),
convert the temperature column with `astype(float)`, and build the frame. -/
def decode_assemble (pos : List ℚ) (vals : List TempField) :
    Except PyExc (List Row) := do
  let positions ← get_positions pos
  if positions.length = vals.length then do
    let temps ← astype_column vals
    .ok ((positions.zip temps).map fun pt => mkRow pt.1 pt.2)
  else .error .valueError

/-- The persisted per-year record (the value stored under the 4-digit
year key in history.json, src/data.py:130-133). -/
structure HistRecord where
  temperature : ℚ
  time : ℤ
deriving DecidableEq, Repr

/-- The year-keyed mapping held in history.json. -/
def History := List (ℕ × HistRecord)
deriving DecidableEq, Repr

/-- State of the durable history file.  `absent` raises
`FileNotFoundError` on a read-open (handled by `check_history`),
`corrupt` makes `json.load` raise `JSONDecodeError` (a `ValueError`),
`unreadable` makes any open raise an `OSError` (e.g. permissions), and
`stored h` is a well-formed mapping. -/
inductive HistFile where
  | absent
  | corrupt
  | unreadable
  | stored (h : List (ℕ × HistRecord))
deriving DecidableEq, Repr

/-- Embedding of `check_history` (src/data.py:25-37) for a given current
year: loads the mapping and returns the current year's record if present
(`False`, i.e. `none`, otherwise); on `FileNotFoundError` it creates the
file with an empty mapping.  Returns the record lookup together with the
mapping now on disk. -/
def check_history (year : ℕ) :
    HistFile → Except PyExc (Option HistRecord × List (ℕ × HistRecord))
  | .absent => .ok (none, [])
  | .corrupt => .error .valueError
  | .unreadable => .error .osError
  | .stored h => .ok (h.lookup year, h)

/-- Whether a row qualifies for the threshold filter
`df.loc[df["temp"] >= threshold]` (src/data.py:121); a NaN temperature
compares as False in pandas and is filtered out. -/
def qualifies (t : Option ℚ) (threshold : ℚ) : Bool :=
  match t with
  | none => false
  | some v => decide (threshold ≤ v)

/-- Embedding of `record_possible_tonkka` (src/data.py:114-136).
`now` is `dt.datetime.now(tz=Europe/Helsinki)` and `year` is
`dt.datetime.now().year`.  The filtered frame's first row is examined:
`record_happened = tonks.loc[0, "time"] < now` (strict), and the write is
guarded by `record_happened & (check_history() is False)` — note `&` is
non-short-circuiting, so `check_history` runs (and can raise) whenever
the filter is non-empty.  The write re-reads the file and dumps the
mapping extended with the current year's record; the trailing
`check_history()` call at src/data.py:136 only re-reads and is elided. -/
def record_possible_tonkka (df : List Row) (threshold : ℚ) (now : ℤ)
    (year : ℕ) (f : HistFile) : Except PyExc HistFile :=
  match df.filter fun r => qualifies r.temp threshold with
  | [] => .ok f
  | first :: _ =>
    match check_history year f with
    | .error e => .error e
    | .ok (existing, h) =>
      if decide (first.time < now) && existing.isNone then
        .ok (.stored ((year,
          { temperature := first.temp.getD 0, time := first.time }) :: h))
      else .ok (.stored h)

/-- The HTTP query parameters sent to the FMI WFS endpoint
(src/data.py:158-172).  `starttime` models the formatted start instant
as its epoch value (`none` when the parameter is absent). -/
structure Payload where
  request : String
  storedquery_id : String
  starttime : Option ℤ
  place : String
  timestep : Option String
  parameters : String
deriving DecidableEq, Repr

/-- Python truthiness of the `hourdelta` argument as used by
`if hourdelta:` (src/data.py:153): `None` and `0` are falsy. -/
def pyTruthy : Option ℤ → Bool
  | none => false
  | some n => decide (n ≠ 0)

/-- Query construction in `fetch_data` (src/data.py:153-172): history
mode when `hourdelta` is truthy (start = now − hourdelta hours, timestep
10, parameter `t2m`), forecast mode otherwise (no starttime, no
timestep, parameter `temperature`). -/
def buildPayload (hourdelta : Option ℤ) (now : ℤ) : Payload :=
  if pyTruthy hourdelta then
    { request := "getFeature"
      storedquery_id := "fmi::observations::weather::multipointcoverage"
      starttime := some (now - 3600 * hourdelta.getD 0)
      place := "vantaa"
      timestep := some "10"
      parameters := "t2m" }
  else
    { request := "getFeature"
      storedquery_id := "fmi::forecast::harmonie::surface::point::multipointcoverage"
      starttime := none
      place := "vantaa"
      timestep := none
      parameters := "temperature" }

/-- Outcome of the network round trip as `fetch_data` observes it:
`netError` stands for any `requests.RequestException` (timeout,
connection error, or `raise_for_status` on a non-2xx response),
`parseError` for a body `ET.fromstring` rejects, and `okPayload` carries
the decoded positions token list and the temperature value rows of a
well-formed body. -/
inductive NetResult where
  | netError
  | parseError
  | okPayload (pos : List ℚ) (vals : List TempField)
deriving DecidableEq, Repr

/-- The ambient world of one `fetch_data` call: the network as a function
of the request, and the wall clock (Helsinki epoch seconds and calendar
year). -/
structure Env where
  net : Payload → NetResult
  now : ℤ
  year : ℕ

/-- The `try` body of `fetch_data` (src/data.py:152-201): build the
query, perform the request, decode and assemble the frame, run the
threshold tracker, and return the frame together with the resulting
history-file state. -/
def fetch_body (env : Env) (hourdelta : Option ℤ) (f : HistFile) :
    Except PyExc (List Row × HistFile) :=
  match env.net (buildPayload hourdelta env.now) with
  | .netError => .error .requestException
  | .parseError => .error .parseError
  | .okPayload pos vals =>
    match decode_assemble pos vals with
    | .error e => .error e
    | .ok df =>
      match record_possible_tonkka df 20 env.now env.year f with
      | .error e => .error e
      | .ok f1 => .ok (df, f1)

/-- Exception classes caught by the `except` clauses of `fetch_data`
(src/data.py:203-212): `requests.RequestException`, `ET.ParseError`, and
`(ValueError, KeyError, IndexError)`.  `OSError` is not among them. -/
def caughtByFetch : PyExc → Bool
  | .requestException => true
  | .parseError => true
  | .valueError => true
  | .keyError => true
  | .indexError => true
  | .osError => false

/-- Embedding of `fetch_data` (src/data.py:139-212): the body's caught
exceptions are converted to the empty frame (with the standard column
structure, which in this typed embedding is the `Row` type itself);
an uncaught exception propagates to the caller, modelled as `.error`. -/
def fetch_data (env : Env) (hourdelta : Option ℤ) (f : HistFile) :
    Except PyExc (List Row) × HistFile :=
  match fetch_body env hourdelta f with
  | .ok (df, f1) => (.ok df, f1)
  | .error e => if caughtByFetch e then (.ok [], f) else (.error e, f)

/-- Pandas `df.dropna(subset=["temp"])` (src/data.py:225). -/
def dropna (df : List Row) : List Row :=
  df.filter fun r => r.temp.isSome

/-- Embedding of `temperature` (src/data.py:215-230): fetch the 6-hour
history window, return `(None, None)` on an empty frame, drop NaN
temperatures, return `(None, None)` if nothing remains, else the last
remaining row's temperature and timestamp. -/
def temperature (env : Env) (f : HistFile) :
    Except PyExc (Option (ℚ × ℤ)) × HistFile :=
  match fetch_data env (some 6) f with
  | (.error e, f1) => (.error e, f1)
  | (.ok df, f1) =>
    if df.isEmpty then (.ok none, f1)
    else
      match (dropna df).getLast? with
      | none => (.ok none, f1)
      | some r => (.ok (some (r.temp.getD 0, r.time)), f1)

/-- Ascending timestamp order of an assembled series (the upstream
payload is chronological; see spec §3). -/
def SortedByTime (df : List Row) : Prop :=
  df.Pairwise fun a b => a.time ≤ b.time

/-- A concrete world whose service always answers with a single sample
(latitude token 60, longitude token 24, epoch 100, temperature 10),
below the threshold; clock at epoch 1000 in year 2023. -/
def envData : Env :=
  { net := fun _ => .okPayload [60, 24, 100] [.num 10]
    now := 1000
    year := 2023 }

/-- A concrete world whose service always fails with a network error. -/
def envFail : Env :=
  { net := fun _ => .netError
    now := 1000
    year := 2023 }

/-- A concrete world whose service answers with a single past sample at
temperature 21, above the threshold, so the tracker's persistence step
runs. -/
def envHot : Env :=
  { net := fun _ => .okPayload [60, 24, 100] [.num 21]
    now := 1000
    year := 2023 }

/-- A concrete world whose service answers with three chronological
samples: a valid reading 5 at epoch 100 followed by two NaN gap markers
at epochs 200 and 300. -/
def envGaps : Env :=
  { net := fun _ => .okPayload [60, 24, 100, 61, 25, 200, 62, 26, 300]
      [.num 5, .nan, .nan]
    now := 1000
    year := 2023 }

/-! Helper lemmas shared by the claim theorems. -/

theorem get_positions_err : ∀ (pos : List ℚ) (e : PyExc),
    get_positions pos = .error e → caughtByFetch e = true := by
  intro pos
  induction pos using get_positions.induct with
  | case1 =>
    intro e h
    simp [get_positions] at h
  | case2 lat lon ts rest ih =>
    intro e h
    simp only [get_positions] at h
    cases hp : pyInt ts with
    | error e1 =>
      have he : e1 = .valueError := by
        simp only [pyInt] at hp
        split at hp <;> simp_all
      subst he
      simp only [Bind.bind, Except.bind, hp] at h
      injection h with h
      simp [← h, caughtByFetch]
    | ok t =>
      cases hr : get_positions rest with
      | error e2 =>
        simp only [Bind.bind, Except.bind, hp, hr] at h
        injection h with h
        exact h ▸ ih e2 hr
      | ok ps => simp [Bind.bind, Except.bind, hp, hr] at h
  | case3 x h1 h2 =>
    intro e h
    simp only [get_positions] at h
    injection h with h
    simp [← h, caughtByFetch]

theorem astype_column_err : ∀ (vals : List TempField) (e : PyExc),
    astype_column vals = .error e → e = .valueError := by
  intro vals
  induction vals with
  | nil =>
    intro e h
    simp [astype_column] at h
  | cons a t ih =>
    intro e h
    simp only [astype_column] at h
    cases ha : astypeFloat a with
    | error e1 =>
      have he : e1 = .valueError := by cases a <;> simp_all [astypeFloat]
      subst he
      simp only [Bind.bind, Except.bind, ha] at h
      injection h with h
      exact h.symm
    | ok b =>
      cases ht : astype_column t with
      | error e2 =>
        simp only [Bind.bind, Except.bind, ha, ht] at h
        injection h with h
        exact h ▸ ih e2 ht
      | ok bs => simp [Bind.bind, Except.bind, ha, ht] at h

theorem astype_column_ok : ∀ (vals : List TempField) (temps : List (Option ℚ)),
    astype_column vals = .ok temps →
    temps.length = vals.length ∧
    ∀ i (hv : i < vals.length) (ht : i < temps.length),
      astypeFloat (vals.get ⟨i, hv⟩) = .ok (temps.get ⟨i, ht⟩) := by
  intro vals
  induction vals with
  | nil =>
    intro temps h
    simp only [astype_column] at h
    injection h with h
    subst h
    simp
  | cons a t ih =>
    intro temps h
    simp only [astype_column] at h
    cases ha : astypeFloat a with
    | error e1 => simp [Bind.bind, Except.bind, ha] at h
    | ok b =>
      cases ht : astype_column t with
      | error e2 => simp [Bind.bind, Except.bind, ha, ht] at h
      | ok bs =>
        simp only [Bind.bind, Except.bind, ha, ht] at h
        injection h with h
        subst h
        obtain ⟨hlen, hidx⟩ := ih bs ht
        refine ⟨by simp [hlen], ?_⟩
        intro i hv hlen2
        cases i with
        | zero => simpa using ha
        | succ n =>
          simpa using hidx n (by simpa using hv) (by simpa using hlen2)

theorem decode_assemble_ok_elim (pos : List ℚ) (vals : List TempField)
    (df : List Row) (h : decode_assemble pos vals = .ok df) :
    ∃ positions temps, get_positions pos = .ok positions ∧
      positions.length = vals.length ∧ astype_column vals = .ok temps ∧
      df = (positions.zip temps).map fun pt => mkRow pt.1 pt.2 := by
  simp only [decode_assemble] at h
  cases hp : get_positions pos with
  | error e => simp [Bind.bind, Except.bind, hp] at h
  | ok positions =>
    simp only [Bind.bind, Except.bind, hp] at h
    split at h
    · cases ht : astype_column vals with
      | error e => simp_all [Bind.bind, Except.bind]
      | ok temps =>
        refine ⟨positions, temps, rfl, by assumption, rfl, ?_⟩
        simp only [Bind.bind, Except.bind, ht] at h
        injection h with h
        exact h.symm
    · simp at h

theorem decode_assemble_err (pos : List ℚ) (vals : List TempField) (e : PyExc)
    (h : decode_assemble pos vals = .error e) : caughtByFetch e = true := by
  simp only [decode_assemble] at h
  cases hp : get_positions pos with
  | error e1 =>
    simp only [Bind.bind, Except.bind, hp] at h
    injection h with h
    exact h ▸ get_positions_err pos e1 hp
  | ok positions =>
    simp only [Bind.bind, Except.bind, hp] at h
    split at h
    · cases ht : astype_column vals with
      | error e2 =>
        simp only [Bind.bind, Except.bind, ht] at h
        injection h with h
        have := astype_column_err vals e2 ht
        subst this
        simp [← h, caughtByFetch]
      | ok temps => simp [Bind.bind, Except.bind, ht] at h
    · injection h with h
      simp [← h, caughtByFetch]

theorem lookup_eq_none_keys {α : Type} (h : List (ℕ × α)) (year : ℕ)
    (hn : h.lookup year = none) : ∀ p ∈ h, p.1 ≠ year := by
  induction h with
  | nil => simp
  | cons a t iht =>
    rw [List.lookup_cons] at hn
    intro p hp
    rcases List.mem_cons.mp hp with rfl | hmem
    · intro hk
      simp [hk] at hn
    · apply iht
      · revert hn
        split <;> simp_all
      · exact hmem

theorem mem_of_getLast_eq {α : Type} : ∀ (l : List α) (r : α),
    l.getLast? = some r → r ∈ l := by
  intro l
  induction l with
  | nil => simp
  | cons a t ih =>
    intro r hl
    cases t with
    | nil =>
      simp only [List.getLast?_singleton] at hl
      injection hl with hl
      subst hl
      exact List.mem_singleton_self a
    | cons b t2 =>
      have hl2 : (b :: t2).getLast? = some r := by
        simpa [List.getLast?_cons_cons] using hl
      exact List.mem_cons_of_mem a (ih r hl2)

theorem pairwise_le_getLast : ∀ (l : List Row) (r : Row),
    (l.Pairwise fun a b => a.time ≤ b.time) → l.getLast? = some r →
    ∀ s ∈ l, s.time ≤ r.time := by
  intro l
  induction l with
  | nil => simp
  | cons a t ih =>
    intro r hp hl s hs
    rcases List.pairwise_cons.mp hp with ⟨ha, hpt⟩
    cases t with
    | nil =>
      simp only [List.getLast?_singleton] at hl
      injection hl with hl
      subst hl
      rcases List.mem_singleton.mp hs with rfl
      exact le_refl _
    | cons b t2 =>
      have hl2 : (b :: t2).getLast? = some r := by
        simpa [List.getLast?_cons_cons] using hl
      rcases List.mem_cons.mp hs with rfl | hmem
      · exact ha r (mem_of_getLast_eq _ r hl2)
      · exact ih r hpt hl2 s hmem

theorem record_stored_nil (df : List Row) (θ : ℚ) (now : ℤ) (year : ℕ)
    (h : List (ℕ × HistRecord))
    (hf : df.filter (fun r => qualifies r.temp θ) = []) :
    record_possible_tonkka df θ now year (.stored h) = .ok (.stored h) := by
  simp [record_possible_tonkka, hf]

theorem record_stored_cons (df : List Row) (θ : ℚ) (now : ℤ) (year : ℕ)
    (h : List (ℕ × HistRecord)) (first : Row) (rest : List Row)
    (hf : df.filter (fun r => qualifies r.temp θ) = first :: rest) :
    record_possible_tonkka df θ now year (.stored h) =
      .ok (if decide (first.time < now) && (h.lookup year).isNone then
        .stored ((year,
          { temperature := first.temp.getD 0, time := first.time }) :: h)
      else .stored h) := by
  simp only [record_possible_tonkka, check_history, hf]
  split <;> rfl

theorem fetch_zero_eq_fetch_none (env : Env) (f : HistFile) :
    fetch_data env (some 0) f = fetch_data env none f := by
  have hb : buildPayload (some 0) env.now = buildPayload none env.now := by
    simp [buildPayload, pyTruthy]
  simp only [fetch_data, fetch_body, hb]

/-! Claim theorems. -/

/-- C10: calling `fetch_data` with hourdelta 0 builds and sends the
forecast-mode query (forecast stored-query identifier and parameter
name, with no starttime and no timestep), exactly as if hourdelta were
None: a zero hour window is silently treated as a forecast request
rather than a zero-hour history request. -/
theorem C10_zero_hourdelta_is_forecast (now : ℤ) (env : Env) (f : HistFile) :
    buildPayload (some 0) now = buildPayload none now ∧
    (buildPayload (some 0) now).storedquery_id =
      "fmi::forecast::harmonie::surface::point::multipointcoverage" ∧
    (buildPayload (some 0) now).parameters = "temperature" ∧
    (buildPayload (some 0) now).starttime = none ∧
    (buildPayload (some 0) now).timestep = none ∧
    fetch_data env (some 0) f = fetch_data env none f := by
  refine ⟨?_, ?_, ?_, ?_, ?_, fetch_zero_eq_fetch_none env f⟩ <;>
    simp [buildPayload, pyTruthy]

/-- C8 (code evaluation at the failing input): the decoder consumes the
position triple as latitude 60, longitude 24, epoch 1700000000 in that
order (src/data.py:106-110) — but assembly labels the columns
`["lon", "lat", "time", "temp"]` positionally (src/data.py:194), so the
assembled sample's `lat` field holds the decoded longitude 24 and its
`lon` field the decoded latitude 60: the coordinates are relabelled
(swapped), contradicting the claim and `get_positions`' own docstring. -/
theorem C8_coordinate_swap_eval :
    get_positions [60, 24, 1700000000] =
      .ok [{ lat := 60, lon := 24, timestamp := 1700000000 }] ∧
    decode_assemble [60, 24, 1700000000] [.num 21] =
      .ok [{ lon := 60, lat := 24, time := 1700000000, temp := some 21 }] ∧
    (mkRow { lat := 60, lon := 24, timestamp := 1700000000 } (some 21)).lat
      = 24 ∧
    (mkRow { lat := 60, lon := 24, timestamp := 1700000000 } (some 21)).lon
      = 60 := by
  refine ⟨by decide, by decide, rfl, rfl⟩

/-- C3 counterexample: with the clock at epoch 1700000000 and no record
yet for year 2023, a series whose only (hence chronologically first)
qualifying sample has temperature 21 ≥ 20 and timestamp exactly equal
to now is NOT recorded: `record_possible_tonkka` compares with strict
`<` (src/data.py:124), so the history is unchanged and no event is
persisted, refuting "inclusive of a timestamp exactly equal to now". -/
theorem C3_counterexample :
    record_possible_tonkka
      [{ lon := 24, lat := 60, time := 1700000000, temp := some 21 }]
      20 1700000000 2023 (.stored []) = .ok (.stored []) ∧
    List.lookup 2023 ([] : List (ℕ × HistRecord)) = none := by
  exact ⟨by decide, rfl⟩

/-- C5 counterexample: a payload with two positions and the value rows
[numeric 10, NaN sentinel] assembles into a TWO-sample series whose
second sample is retained with a missing temperature: the sentinel row
is not dropped from the resulting series (it is also not coerced to 0);
`astype(float)` keeps it as NaN, and dropping only happens later in
`temperature` via `dropna`. -/
theorem C5_counterexample :
    decode_assemble [60, 24, 100, 61, 25, 200] [.num 10, .nan] =
      .ok [{ lon := 60, lat := 24, time := 100, temp := some 10 },
           { lon := 61, lat := 25, time := 200, temp := none }] := by
  decide

/-- C6 counterexample: with a service answering one past above-threshold
sample, a history file whose open raises `OSError` makes `fetch_data`
propagate the exception (the fetch path crashes and the assembled series
is not returned), while an unparsable history file (a `ValueError`)
makes `fetch_data` return the EMPTY series instead of the assembled one
— refuting "the fetch path does not crash and the assembled series is
still returned". -/
theorem C6_counterexample :
    fetch_data envHot none .unreadable = (.error .osError, .unreadable) ∧
    fetch_data envHot none .corrupt = (.ok [], .corrupt) := by
  exact ⟨by decide, by decide⟩

/-- C7 counterexample: no rejection of zero or negative hour windows
occurs before the network call: with hourdelta 0 and hourdelta −5 the
fetch issues the request and returns the series decoded from the
network's response, and with a failing network the result differs — so
the request reaches the network instead of being rejected beforehand. -/
theorem C7_counterexample :
    fetch_data envData (some 0) (.stored []) =
      (.ok [{ lon := 60, lat := 24, time := 100, temp := some 10 }],
        .stored []) ∧
    fetch_data envData (some (-5)) (.stored []) =
      (.ok [{ lon := 60, lat := 24, time := 100, temp := some 10 }],
        .stored []) ∧
    fetch_data envFail (some 0) (.stored []) ≠
      fetch_data envData (some 0) (.stored []) := by
  exact ⟨by decide, by decide, by decide⟩

/-- C1: for every fetch mode (forecast, or history with any hour count),
a network failure (timeout, connection error, non-2xx status), an
unparsable body, or a decode/assembly failure makes `fetch_data` return
the empty series with the standard column structure (the `Row` type),
leaving the history file untouched, and no network or parse exception
ever propagates to the caller — the only exception the handler can let
through is `OSError` from the persistence step. -/
theorem C1_fetch_absorbs_failures (env : Env) (hourdelta : Option ℤ)
    (f : HistFile) :
    (∀ e, (fetch_data env hourdelta f).1 = .error e → e = .osError) ∧
    (env.net (buildPayload hourdelta env.now) = .netError →
      fetch_data env hourdelta f = (.ok [], f)) ∧
    (env.net (buildPayload hourdelta env.now) = .parseError →
      fetch_data env hourdelta f = (.ok [], f)) ∧
    (∀ pos vals e,
      env.net (buildPayload hourdelta env.now) = .okPayload pos vals →
      decode_assemble pos vals = .error e →
      fetch_data env hourdelta f = (.ok [], f)) := by
  refine ⟨?_, ?_, ?_, ?_⟩
  · intro e he
    unfold fetch_data at he
    cases hb : fetch_body env hourdelta f with
    | ok v => rw [hb] at he; simp at he
    | error e1 =>
      rw [hb] at he
      by_cases hc : caughtByFetch e1 = true
      · simp [hc] at he
      · have h1 : e1 = .osError := by
          cases e1 <;> simp_all [caughtByFetch]
        subst h1
        simp [caughtByFetch] at he
        exact he.symm
  · intro hnet
    simp [fetch_data, fetch_body, hnet, caughtByFetch]
  · intro hnet
    simp [fetch_data, fetch_body, hnet, caughtByFetch]
  · intro pos vals e hnet hdec
    have hc := decode_assemble_err pos vals e hdec
    simp [fetch_data, fetch_body, hnet, hdec, hc]

/-- C1 witness: a failing network with forecast mode yields the empty
series and an unchanged history file. -/
theorem C1_witness :
    fetch_data envFail none (.stored []) = (.ok [], .stored []) :=
  (C1_fetch_absorbs_failures envFail none (.stored [])).2.1 rfl

/-- C2: the persisted history maps each year to at most one record, and
once the current year's record exists no observe call overwrites or
deletes it: with an existing record the call is a no-op on the state; key
uniqueness is preserved by every successful call; and in the two-call
scenario the first crossing call writes the record and a second crossing
call in the same year performs no write, the durable record retaining the
first call's temperature and timestamp. -/
theorem C2_no_overwrite_within_year (df df2 : List Row) (threshold : ℚ)
    (now : ℤ) (year : ℕ) (h : List (ℕ × HistRecord)) :
    (∀ rec, h.lookup year = some rec →
      record_possible_tonkka df threshold now year (.stored h) =
        .ok (.stored h)) ∧
    ((h.map Prod.fst).Nodup →
      ∀ h1, record_possible_tonkka df threshold now year (.stored h) =
        .ok (.stored h1) → (h1.map Prod.fst).Nodup) ∧
    (∀ first rest, h.lookup year = none →
      df.filter (fun r => qualifies r.temp threshold) = first :: rest →
      first.time < now →
      record_possible_tonkka df threshold now year (.stored h) =
        .ok (.stored ((year,
                { temperature := first.temp.getD 0,
                  time := first.time }) :: h)) ∧
      record_possible_tonkka df2 threshold now year
          (.stored ((year,
                { temperature := first.temp.getD 0,
                  time := first.time }) :: h)) =
        .ok (.stored ((year,
                { temperature := first.temp.getD 0,
                  time := first.time }) :: h)) ∧
      ((year, { temperature := first.temp.getD 0, time := first.time })
          :: h).lookup year =
        some { temperature := first.temp.getD 0, time := first.time }) := by
  refine ⟨?_, ?_, ?_⟩
  · intro rec hrec
    rcases hfe : df.filter (fun r => qualifies r.temp threshold) with
      _ | ⟨first, rest⟩
    · exact record_stored_nil df threshold now year h hfe
    · rw [record_stored_cons df threshold now year h first rest hfe]
      simp [hrec]
  · intro hnd h1 hrec
    rcases hfe : df.filter (fun r => qualifies r.temp threshold) with
      _ | ⟨first, rest⟩
    · rw [record_stored_nil df threshold now year h hfe] at hrec
      simp only [Except.ok.injEq, HistFile.stored.injEq] at hrec
      exact hrec ▸ hnd
    · rw [record_stored_cons df threshold now year h first rest hfe] at hrec
      cases hc : decide (first.time < now) && (h.lookup year).isNone with
      | true =>
        rw [hc] at hrec
        simp only [if_true, Except.ok.injEq, HistFile.stored.injEq] at hrec
        rw [Bool.and_eq_true] at hc
        have hnone : h.lookup year = none :=
          Option.isNone_iff_eq_none.mp hc.2
        have hkeys := lookup_eq_none_keys h year hnone
        rw [← hrec]
        simp only [List.map_cons, List.nodup_cons]
        refine ⟨?_, hnd⟩
        intro hmem
        rcases List.mem_map.mp hmem with ⟨p, hp, hpy⟩
        exact hkeys p hp hpy
      | false =>
        rw [hc] at hrec
        simp only [Bool.false_eq_true, if_false, Except.ok.injEq,
          HistFile.stored.injEq] at hrec
        exact hrec ▸ hnd
  · intro first rest hnone hfe hnow
    refine ⟨?_, ?_, ?_⟩
    · rw [record_stored_cons df threshold now year h first rest hfe]
      simp [hnone, hnow]
    · rcases hfe2 : df2.filter (fun r => qualifies r.temp threshold) with
        _ | ⟨f2, r2⟩
      · exact record_stored_nil df2 threshold now year _ hfe2
      · rw [record_stored_cons df2 threshold now year _ f2 r2 hfe2]
        simp [List.lookup_cons]
    · simp [List.lookup_cons]

/-- C2 witness: a first observe call at clock 1000 in year 2023 writes
the record (temperature 21 at epoch 100), and a second call with another
crossing series performs no write and retains the first record. -/
theorem C2_witness :
    record_possible_tonkka
      [{ lon := 60, lat := 24, time := 100, temp := some 21 }]
      20 1000 2023 (.stored []) =
      .ok (.stored [(2023, { temperature := 21, time := 100 })]) ∧
    record_possible_tonkka
      [{ lon := 61, lat := 25, time := 200, temp := some 25 }]
      20 1000 2023 (.stored [(2023, { temperature := 21, time := 100 })]) =
      .ok (.stored [(2023, { temperature := 21, time := 100 })]) := by
  have h := (C2_no_overwrite_within_year
    [{ lon := 60, lat := 24, time := 100, temp := some 21 }]
    [{ lon := 61, lat := 25, time := 200, temp := some 25 }]
    20 1000 2023 []).2.2
    { lon := 60, lat := 24, time := 100, temp := some 21 } []
    rfl (by decide) (by decide)
  exact ⟨h.1, h.2.1⟩

/-- C3 (amended): `record_possible_tonkka` never records a yearly event
from a series whose threshold-crossing samples all lie at or after the
current moment, and the per-year transition fires exactly when the first
qualifying sample of the series (chronologically first for the
ascending-ordered series) has a timestamp STRICTLY before the current
moment — a timestamp exactly equal to now does NOT fire. -/
theorem C3_strict_before_now (df : List Row) (θ : ℚ) (now : ℤ) (year : ℕ)
    (h : List (ℕ × HistRecord)) (first : Row) (rest : List Row)
    (hf : df.filter (fun r => qualifies r.temp θ) = first :: rest)
    (hnone : h.lookup year = none) :
    record_possible_tonkka df θ now year (.stored h) =
      .ok (if first.time < now
        then .stored ((year,
                { temperature := first.temp.getD 0,
                  time := first.time }) :: h)
        else .stored h) ∧
    ((∀ r ∈ df, qualifies r.temp θ = true → now ≤ r.time) →
      record_possible_tonkka df θ now year (.stored h) =
        .ok (.stored h)) := by
  have hmemf : first ∈ df.filter fun r => qualifies r.temp θ := by
    rw [hf]; exact List.mem_cons_self first rest
  have hmem : first ∈ df := (List.mem_filter.mp hmemf).1
  have hqual : qualifies first.temp θ = true := (List.mem_filter.mp hmemf).2
  constructor
  · rw [record_stored_cons df θ now year h first rest hf]
    simp only [hnone, Option.isNone_none, Bool.and_true]
    by_cases hc : first.time < now
    · simp [hc]
    · simp [hc]
  · intro hfut
    rw [record_stored_cons df θ now year h first rest hf]
    have hnotlt : ¬ first.time < now := not_lt.mpr (hfut first hmem hqual)
    simp [hnotlt]

/-- C3 witness: with the clock at 1000, a qualifying sample at epoch 100
(strictly in the past) fires the transition and is recorded for 2023. -/
theorem C3_witness :
    record_possible_tonkka
      [{ lon := 60, lat := 24, time := 100, temp := some 21 }]
      20 1000 2023 (.stored []) =
      .ok (if (100 : ℤ) < 1000
        then .stored [(2023, { temperature := 21, time := 100 })]
        else .stored []) :=
  (C3_strict_before_now
    [{ lon := 60, lat := 24, time := 100, temp := some 21 }]
    20 1000 2023 []
    { lon := 60, lat := 24, time := 100, temp := some 21 } []
    (by decide) rfl).1

/-- C4: when the series is in ascending timestamp order, its first
qualifying sample has a past timestamp, and no record exists yet for the
current year, `record_possible_tonkka` persists, keyed under the current
year, exactly that sample's temperature and timestamp; that sample is
the chronologically first qualifying one (lowest timestamp among all
qualifying samples), and the recorded temperature is its actual value. -/
theorem C4_first_qualifying (df : List Row) (θ : ℚ) (now : ℤ) (year : ℕ)
    (h : List (ℕ × HistRecord)) (first : Row) (rest : List Row)
    (hsort : SortedByTime df)
    (hf : df.filter (fun r => qualifies r.temp θ) = first :: rest)
    (hnow : first.time < now) (hnone : h.lookup year = none) :
    record_possible_tonkka df θ now year (.stored h) =
      .ok (.stored ((year,
              { temperature := first.temp.getD 0,
                time := first.time }) :: h)) ∧
    (∀ r ∈ df, qualifies r.temp θ = true → first.time ≤ r.time) ∧
    (∃ v, first.temp = some v ∧ θ ≤ v) ∧
    ((year, { temperature := first.temp.getD 0, time := first.time })
        :: h).lookup year =
      some { temperature := first.temp.getD 0, time := first.time } := by
  have hmemf : first ∈ df.filter fun r => qualifies r.temp θ := by
    rw [hf]; exact List.mem_cons_self first rest
  have hqual : qualifies first.temp θ = true := (List.mem_filter.mp hmemf).2
  refine ⟨?_, ?_, ?_, ?_⟩
  · rw [record_stored_cons df θ now year h first rest hf]
    simp [hnone, hnow]
  · intro r hr hq
    have hrf : r ∈ df.filter fun s => qualifies s.temp θ :=
      List.mem_filter.mpr ⟨hr, hq⟩
    rw [hf] at hrf
    rcases List.mem_cons.mp hrf with rfl | hrest
    · exact le_refl _
    · have hpw : (df.filter fun s => qualifies s.temp θ).Pairwise
          fun a b => a.time ≤ b.time := List.Pairwise.filter _ hsort
      rw [hf] at hpw
      exact (List.pairwise_cons.mp hpw).1 r hrest
  · rcases ht : first.temp with _ | v
    · rw [ht] at hqual; simp [qualifies] at hqual
    · rw [ht] at hqual
      exact ⟨v, rfl, of_decide_eq_true hqual⟩
  · simp [List.lookup_cons]

/-- C4 witness: the spec scenario with three ascending samples at
temperatures 10, 21, 20 and threshold 20, all in the past: the SECOND
sample (21 at epoch 200) is recorded, not the later qualifying third. -/
theorem C4_witness :
    record_possible_tonkka
      [{ lon := 60, lat := 24, time := 100, temp := some 10 },
       { lon := 61, lat := 25, time := 200, temp := some 21 },
       { lon := 62, lat := 26, time := 300, temp := some 20 }]
      20 1000 2023 (.stored []) =
      .ok (.stored [(2023, { temperature := 21, time := 200 })]) :=
  (C4_first_qualifying
    [{ lon := 60, lat := 24, time := 100, temp := some 10 },
     { lon := 61, lat := 25, time := 200, temp := some 21 },
     { lon := 62, lat := 26, time := 300, temp := some 20 }]
    20 1000 2023 []
    { lon := 61, lat := 25, time := 200, temp := some 21 }
    [{ lon := 62, lat := 26, time := 300, temp := some 20 }]
    (by unfold SortedByTime; decide) (by decide) (by decide) rfl).1

/-- C5 (amended): a decoded value row whose temperature field is the
"NaN" no-data sentinel is RETAINED in the assembled series as a sample
with a missing temperature (`none`), aligned with its position — the
sample is not omitted (the series keeps one sample per value row) — and
it is never coerced to temperature 0.0: an assembled sample carries
temperature 0 only if its value row was the numeric literal 0. -/
theorem C5_nan_retained (pos : List ℚ) (vals : List TempField)
    (df : List Row) (hok : decode_assemble pos vals = .ok df) :
    df.length = vals.length ∧
    ∀ i (hi : i < df.length) (hv : i < vals.length),
      (vals.get ⟨i, hv⟩ = .nan → (df.get ⟨i, hi⟩).temp = none) ∧
      ((df.get ⟨i, hi⟩).temp = some 0 → vals.get ⟨i, hv⟩ = .num 0) := by
  obtain ⟨positions, temps, hp, hlen, ht, hdf⟩ :=
    decode_assemble_ok_elim pos vals df hok
  obtain ⟨htlen, hidx⟩ := astype_column_ok vals temps ht
  subst hdf
  have hdlen :
      ((positions.zip temps).map fun pt => mkRow pt.1 pt.2).length =
        vals.length := by
    simp [List.length_map, List.length_zip, hlen, htlen]
  refine ⟨hdlen, ?_⟩
  intro i hi hv
  have hit : i < temps.length := by omega
  have hgi :
      (((positions.zip temps).map fun pt => mkRow pt.1 pt.2).get
        ⟨i, hi⟩).temp = temps.get ⟨i, hit⟩ := by
    simp [List.get_eq_getElem, List.getElem_map, List.getElem_zip, mkRow]
  have hai := hidx i hv hit
  constructor
  · intro hnan
    rw [hnan] at hai
    simp only [astypeFloat, Except.ok.injEq] at hai
    exact hgi.trans hai.symm
  · intro h0
    rw [hgi] at h0
    rcases hveq : vals.get ⟨i, hv⟩ with q | _ | _
    · rw [hveq] at hai
      simp only [astypeFloat, Except.ok.injEq] at hai
      rw [← hai] at h0
      injection h0 with h0
      rw [h0]
    · rw [hveq] at hai
      simp only [astypeFloat, Except.ok.injEq] at hai
      rw [← hai] at h0
      simp at h0
    · rw [hveq] at hai
      simp [astypeFloat] at hai

/-- C5 witness: the two-row payload with a NaN sentinel in the second
row assembles to a two-sample series whose second sample is present with
a missing temperature. -/
theorem C5_witness :
    ([{ lon := 60, lat := 24, time := 100, temp := some 10 },
      { lon := 61, lat := 25, time := 200, temp := none }] : List Row).length
      = ([.num 10, .nan] : List TempField).length ∧
    (([{ lon := 60, lat := 24, time := 100, temp := some 10 },
       { lon := 61, lat := 25, time := 200, temp := none }] : List Row).get
      ⟨1, by decide⟩).temp = none := by
  have h := C5_nan_retained [60, 24, 100, 61, 25, 200] [.num 10, .nan]
    [{ lon := 60, lat := 24, time := 100, temp := some 10 },
     { lon := 61, lat := 25, time := 200, temp := none }] (by decide)
  exact ⟨h.1, (h.2 1 (by decide) (by decide)).1 rfl⟩

/-- C6 (amended): if reading or writing the durable history file fails
during the threshold-tracking step of an otherwise successful fetch
(decoded series with at least one threshold-crossing sample), the
persistence failure is surfaced rather than silently swallowed, but the
fetch path does not deliver the assembled series: a file-system failure
(`OSError`) propagates out of `fetch_data` (crashing the fetch path),
and an unparsable history file (`ValueError` from `json.load`) makes
`fetch_data` return the EMPTY series in place of the assembled one. -/
theorem C6_persistence_surfaced (env : Env) (hd : Option ℤ) (pos : List ℚ)
    (vals : List TempField) (df : List Row) (first : Row) (rest : List Row)
    (hnet : env.net (buildPayload hd env.now) = .okPayload pos vals)
    (hdf : decode_assemble pos vals = .ok df)
    (hq : df.filter (fun r => qualifies r.temp 20) = first :: rest) :
    fetch_data env hd .unreadable = (.error .osError, .unreadable) ∧
    fetch_data env hd .corrupt = (.ok [], .corrupt) := by
  have hru : record_possible_tonkka df 20 env.now env.year .unreadable =
      .error .osError := by
    simp [record_possible_tonkka, hq, check_history]
  have hrc : record_possible_tonkka df 20 env.now env.year .corrupt =
      .error .valueError := by
    simp [record_possible_tonkka, hq, check_history]
  constructor
  · simp [fetch_data, fetch_body, hnet, hdf, hru, caughtByFetch]
  · simp [fetch_data, fetch_body, hnet, hdf, hrc, caughtByFetch]

/-- C6 witness: with the hot one-sample service and a 3-hour history
window, an unreadable history file crashes the fetch and a corrupt one
collapses the result to the empty series. -/
theorem C6_witness :
    fetch_data envHot (some 3) .unreadable = (.error .osError, .unreadable) ∧
    fetch_data envHot (some 3) .corrupt = (.ok [], .corrupt) :=
  C6_persistence_surfaced envHot (some 3) [60, 24, 100] [.num 21]
    [{ lon := 60, lat := 24, time := 100, temp := some 21 }]
    { lon := 60, lat := 24, time := 100, temp := some 21 } []
    rfl (by decide) (by decide)

/-- C7 (amended): `fetch_data` performs no hour-window validation and
rejects nothing before the network call: hourdelta 0 is silently treated
as a forecast request identical to hourdelta None, and a negative
hourdelta builds a history-mode query whose start time lies strictly in
the future of now; the network request is issued in both cases. -/
theorem C7_no_rejection (now : ℤ) (hd : ℤ) (hneg : hd < 0) :
    (∀ env f, fetch_data env (some 0) f = fetch_data env none f) ∧
    (buildPayload (some hd) now).storedquery_id =
      "fmi::observations::weather::multipointcoverage" ∧
    (buildPayload (some hd) now).starttime = some (now - 3600 * hd) ∧
    (∀ s, (buildPayload (some hd) now).starttime = some s → now < s) := by
  have htr : pyTruthy (some hd) = true := by
    simp only [pyTruthy, decide_eq_true_eq]
    omega
  refine ⟨fun env f => fetch_zero_eq_fetch_none env f, ?_, ?_, ?_⟩
  · simp [buildPayload, htr]
  · simp [buildPayload, htr]
  · intro s hs
    simp only [buildPayload, htr, if_true, Option.getD_some,
      Option.some.injEq] at hs
    omega

/-- C7 witness: at clock 1000 with hourdelta −5 the history query is
built with a start time 19000, strictly after now. -/
theorem C7_witness :
    (buildPayload (some (-5)) 1000).storedquery_id =
      "fmi::observations::weather::multipointcoverage" ∧
    (buildPayload (some (-5)) 1000).starttime = some (1000 - 3600 * (-5)) :=
  ⟨(C7_no_rejection 1000 (-5) (by decide)).2.1,
   (C7_no_rejection 1000 (-5) (by decide)).2.2.1⟩

/-- C9: `temperature` consults the 6-hour trailing history fetch (the
query's start time is now − 21600 seconds, observation mode), drops
samples with missing temperature, and returns the temperature and
timestamp of the last remaining sample — which, for an ascending series,
carries the highest timestamp among the valid samples; it returns `none`
(the model of Python's `(None, None)`) when the fetched series is empty
or no sample with a present temperature remains. -/
theorem C9_current_latest_valid (env : Env) (f : HistFile) :
    (buildPayload (some 6) env.now).starttime = some (env.now - 21600) ∧
    (buildPayload (some 6) env.now).storedquery_id =
      "fmi::observations::weather::multipointcoverage" ∧
    (∀ df f1, fetch_data env (some 6) f = (.ok df, f1) →
      (dropna df = [] → temperature env f = (.ok none, f1)) ∧
      (∀ r, (dropna df).getLast? = some r →
        temperature env f = (.ok (some (r.temp.getD 0, r.time)), f1) ∧
        (SortedByTime df → ∀ s ∈ dropna df, s.time ≤ r.time))) := by
  refine ⟨?_, by simp [buildPayload, pyTruthy], ?_⟩
  · simp only [buildPayload, pyTruthy]
    norm_num
  · intro df f1 hfetch
    constructor
    · intro hdrop
      unfold temperature
      rw [hfetch]
      by_cases hemp : df.isEmpty
      · simp [hemp]
      · simp [hemp, hdrop]
    · intro r hlast
      constructor
      · unfold temperature
        rw [hfetch]
        have hne : ¬ df.isEmpty = true := by
          intro hemp
          rw [List.isEmpty_iff] at hemp
          subst hemp
          simp [dropna] at hlast
        simp [hne, hlast]
      · intro hsort s hs
        have hpw : (dropna df).Pairwise fun a b => a.time ≤ b.time :=
          List.Pairwise.filter _ hsort
        exact pairwise_le_getLast _ r hpw hlast s hs

/-- C9 witness: with the three-sample gap series (valid 5 at epoch 100,
NaN markers at 200 and 300), `temperature` skips the two trailing gaps
and returns the valid sample's value 5 and timestamp 100. -/
theorem C9_witness :
    temperature envGaps (.stored []) = (.ok (some (5, 100)), .stored []) :=
  (((C9_current_latest_valid envGaps (.stored [])).2.2
      [{ lon := 60, lat := 24, time := 100, temp := some 5 },
       { lon := 61, lat := 25, time := 200, temp := none },
       { lon := 62, lat := 26, time := 300, temp := none }]
      (.stored []) (by decide)).2
    { lon := 60, lat := 24, time := 100, temp := some 5 } (by decide)).1

end Tonkkabot
